import Mathlib

/-!
Verification of the Media Storage & Derivation subsystem of the golf-coaching
backend (`backend/app/services/thumbnail.py`, `backend/app/services/storage.py`,
`backend/app/routers/upload.py`, `backend/app/main.py`).

The Python code is shallowly embedded: every external effect (the ffmpeg
subprocess, the PIL JPEG encoder, the filesystem, the Azure SDK, the upstream
HTTP fetch, environment variables, the clock) is an explicit parameter of the
Lean function that models the Python function, and the Python control flow
(try/except/finally, early returns) is translated branch by branch.
-/

namespace ThumbnailSvc

/-- The three frame-extraction strategies attempted by
`ThumbnailService.generate_thumbnail` (thumbnail.py lines 50-73), in source
order: seek to `00:00:02`, seek to `00:00:00`, no `-ss` argument. -/
inductive Strategy where
  | seekAt2
  | seekAt0
  | noSeek
deriving DecidableEq

/-- The `timestamp` argument `generate_thumbnail` passes to
`_extract_thumbnail_with_ffmpeg` for each strategy (lines 54, 63, 72). -/
def Strategy.timestampArg : Strategy → Option String
  | .seekAt2 => some "00:00:02"
  | .seekAt0 => some "00:00:00"
  | .noSeek => none

/-- Observable outcome of one `_extract_thumbnail_with_ffmpeg` call:
`success` is the helper's return value (it returns `True` exactly when the
subprocess exited 0 and the output file exists, line 155; every internal
exception — tool unavailable, timeout, non-zero exit — yields `False`,
lines 159-174), and `leavesFile` records whether the invocation left an
output file on disk (a failed run may still write a partial file). -/
structure AttemptResult where
  success : Bool
  leavesFile : Bool
deriving DecidableEq

/-- The constant drawing program issued by
`ThumbnailService._create_default_thumbnail` (thumbnail.py lines 187-212):
a 480x270 RGB canvas with background `#2d3748`, a white play-button triangle
computed from center (240,135) and size 40, and a white frame rectangle with
margin 60 and width 3.  All arguments are literals in the source; the record
holds them exactly as computed there. -/
structure DrawSpec where
  width : Nat
  height : Nat
  background : String
  triangle : List (Int × Int)
  frameRect : List Int
  frameOutline : String
  frameWidth : Nat
deriving DecidableEq

/-- The draw spec built by `_create_default_thumbnail`, with each field the
literal arithmetic of thumbnail.py lines 187-212 (`center_x, center_y = 240,
135`, `triangle_size = 40`, `frame_margin = 60`). -/
def defaultThumbSpec : DrawSpec :=
  { width := 480
    height := 270
    background := "#2d3748"
    triangle := [(240 - 40 / 2, 135 - 40 / 2), (240 - 40 / 2, 135 + 40 / 2), (240 + 40 / 2, 135)]
    frameRect := [60, 60, 480 - 60, 270 - 60]
    frameOutline := "white"
    frameWidth := 3 }

/-- The hard-coded 1x1 gray-pixel JPEG returned by `_create_default_thumbnail`
when even the PIL rendering raises (thumbnail.py lines 224-233), byte for
byte. -/
def minimalJpeg : List Nat :=
  [255, 216, 255, 224, 0, 16, 74, 70, 73, 70, 0, 1, 1, 1, 0, 72, 0, 72, 0, 0,
   255, 219, 0, 67, 0, 8, 6, 6, 7, 6, 5, 8, 7, 7, 7, 9, 9, 8, 10, 12, 20, 13,
   12, 11, 11, 12, 25, 18, 19, 15, 20, 29, 26, 31, 30, 29, 26, 28, 28, 32, 36,
   46, 39, 32, 34, 44, 35, 28, 28, 40, 55, 41, 44, 48, 49, 52, 52, 52, 31, 39,
   57, 61, 56, 50, 60, 46, 51, 52, 50, 255, 192, 0, 17, 8, 0, 1, 0, 1, 1, 1,
   17, 0, 2, 17, 1, 3, 17, 1, 255, 196, 0, 20, 0, 1, 0, 0, 0, 0, 0, 0, 0, 0, 0,
   0, 0, 0, 0, 0, 0, 8, 255, 218, 0, 8, 1, 1, 0, 0, 63, 0, 170, 255, 217]

/-- JPEG magic-byte check: the byte list starts with `FF D8` and ends with
`FF D9`. -/
def jpegMagicOk (b : List Nat) : Bool :=
  b.take 2 == [255, 216] && b.reverse.take 2 == [217, 255]

/-- Per-process state visible to the service: the pid used in temp-file names
(`os.getpid()`, lines 37 and 47), the temp directory (`tempfile.gettempdir()`,
line 16), and ambient sources a call might in principle read (clock, RNG).
`_create_default_thumbnail` reads none of these. -/
structure ProcessState where
  pid : Nat
  tempDir : String
  nowSec : Nat
  randomSeed : Nat

/-- Environment of one `generate_thumbnail` call: every external effect the
Python code performs, as data.  `attempt` is the behavior of the ffmpeg
helper per strategy; `videoFrameW`/`videoFrameH` are the frame dimensions of
the staged video (what ffmpeg sees as `iw`/`ih`); `extractedBytes` is the
content read back from the extracted thumbnail file; the `Raises` flags mark
which of the fallible filesystem operations raise; `pilOk` is whether the PIL
rendering in `_create_default_thumbnail` succeeds. -/
structure Env where
  readVideoRaises : Bool
  attempt : Strategy → AttemptResult
  videoFrameW : Nat
  videoFrameH : Nat
  extractedBytes : List Nat
  readThumbRaises : Bool
  pilOk : Bool
  unlinkVideoRaises : Bool
  unlinkThumbRaises : Bool

/-- Which branch produced the returned bytes. -/
inductive ThumbSource where
  | extracted (s : Strategy)
  | placeholder
  | minimal
deriving DecidableEq

/-- Result of one modelled `generate_thumbnail` call: the returned bytes, the
branch that produced them, the ordered list of ffmpeg extraction attempts
actually made, and whether each temp file is still on disk afterwards. -/
structure GenResult where
  bytes : List Nat
  source : ThumbSource
  trace : List Strategy
  tempVideoLeft : Bool
  tempThumbLeft : Bool
deriving DecidableEq

/-- `ThumbnailService._create_default_thumbnail` (thumbnail.py lines 176-235):
render the constant `defaultThumbSpec` drawing and JPEG-encode it at quality
85 via PIL (modelled by the encoder parameter `enc`); if the PIL path raises,
return the hard-coded `minimalJpeg`.  The method reads no per-process state,
so the `ProcessState` argument is unused — exactly as in the source, whose
body mentions only literals. -/
def create_default_thumbnail (enc : DrawSpec → Nat → List Nat) (pilOk : Bool)
    (_ps : ProcessState) : List Nat × ThumbSource :=
  if pilOk then (enc defaultThumbSpec 85, ThumbSource.placeholder)
  else (minimalJpeg, ThumbSource.minimal)

/-- `ThumbnailService.generate_thumbnail` (thumbnail.py lines 18-102).
Control flow translated branch by branch:
* staging the video to the temp file (lines 36-44); if reading the input
  stream raises, the inner `finally` (lines 86-98) removes the staged file
  (unless `unlink` itself raises, in which case the per-file `except` keeps
  going) and the outer `except` (lines 100-102) returns the default thumbnail;
* the three-attempt ffmpeg chain (lines 50-73): after each attempt the code
  retries iff `not success or not temp_thumbnail_path.exists()`; the file
  exists after attempt k iff some attempt so far left one;
* chain exhausted (lines 76-78): return the default thumbnail, `finally`
  cleaning both temp files;
* success (lines 81-84): read the extracted file back; if that read raises,
  cleanup runs and the outer `except` returns the default thumbnail. -/
def generate_thumbnail (enc : DrawSpec → Nat → List Nat) (e : Env)
    (ps : ProcessState) : GenResult :=
  if e.readVideoRaises then
    let d := create_default_thumbnail enc e.pilOk ps
    { bytes := d.1, source := d.2, trace := []
      tempVideoLeft := e.unlinkVideoRaises, tempThumbLeft := false }
  else
    let r1 := e.attempt Strategy.seekAt2
    let ex1 := r1.leavesFile
    if r1.success && ex1 then
      finishRead enc e ps [Strategy.seekAt2] Strategy.seekAt2 ex1
    else
      let r2 := e.attempt Strategy.seekAt0
      let ex2 := ex1 || r2.leavesFile
      if r2.success && ex2 then
        finishRead enc e ps [Strategy.seekAt2, Strategy.seekAt0] Strategy.seekAt0 ex2
      else
        let r3 := e.attempt Strategy.noSeek
        let ex3 := ex2 || r3.leavesFile
        if r3.success && ex3 then
          finishRead enc e ps [Strategy.seekAt2, Strategy.seekAt0, Strategy.noSeek]
            Strategy.noSeek ex3
        else
          let d := create_default_thumbnail enc e.pilOk ps
          { bytes := d.1, source := d.2
            trace := [Strategy.seekAt2, Strategy.seekAt0, Strategy.noSeek]
            tempVideoLeft := e.unlinkVideoRaises
            tempThumbLeft := ex3 && e.unlinkThumbRaises }
where
  /-- Lines 81-84 plus the `finally`/outer-`except`: read the extracted
  thumbnail file back and return it; on a read exception fall back to the
  default thumbnail.  Either way both temp files are removed by the
  `finally` unless the respective `unlink` raises. -/
  finishRead (enc : DrawSpec → Nat → List Nat) (e : Env) (ps : ProcessState)
      (tr : List Strategy) (s : Strategy) (thumbOnDisk : Bool) : GenResult :=
    if e.readThumbRaises then
      let d := create_default_thumbnail enc e.pilOk ps
      { bytes := d.1, source := d.2, trace := tr
        tempVideoLeft := e.unlinkVideoRaises
        tempThumbLeft := thumbOnDisk && e.unlinkThumbRaises }
    else
      { bytes := e.extractedBytes, source := ThumbSource.extracted s, trace := tr
        tempVideoLeft := e.unlinkVideoRaises
        tempThumbLeft := thumbOnDisk && e.unlinkThumbRaises }

/-- Output dimensions of ffmpeg's `scale=w:h:force_original_aspect_ratio=decrease`
for a w x h target: the frame is shrunk (never grown past the target) to the
largest size that fits inside `tw x th` while preserving aspect ratio. -/
def scaleFitDecrease (iw ih tw th : Nat) : Nat × Nat :=
  if iw * th ≤ ih * tw then (iw * th / ih, th) else (tw, ih * tw / iw)

/-- Dimension semantics of the exact filter string built at thumbnail.py line
137: `scale='min(480,iw)':'min(270,ih)':force_original_aspect_ratio=decrease,
pad=480:270:(ow-iw)/2:(oh-ih)/2:color=black`.  The scale stage targets
`(min 480 iw, min 270 ih)` with `decrease`; the pad stage emits a 480x270
frame provided the scaled frame fits inside it (ffmpeg's pad errors out
otherwise, hence the `Option`). -/
def scalePadDims (iw ih : Nat) : Option (Nat × Nat) :=
  let tw := min 480 iw
  let th := min 270 ih
  let s := scaleFitDecrease iw ih tw th
  if s.1 ≤ 480 && s.2 ≤ 270 then some (480, 270) else none

/-- Pixel dimensions of the image encoded by the bytes a `generate_thumbnail`
call returned: an extracted frame has the dimensions produced by the line-137
filter applied to the video's frame size; the synthesized placeholder has the
`Image.new` canvas size of `defaultThumbSpec` (line 187); the hard-coded
fallback JPEG declares a 1x1 frame in its SOF0 marker (line 229). -/
def resultDims (e : Env) (r : GenResult) : Option (Nat × Nat) :=
  match r.source with
  | ThumbSource.extracted _ => scalePadDims e.videoFrameW e.videoFrameH
  | ThumbSource.placeholder => some (defaultThumbSpec.width, defaultThumbSpec.height)
  | ThumbSource.minimal => some (1, 1)

/-- The fixed strategy order of the source (attempt 1 at line 51, attempt 2 at
line 60, attempt 3 at line 69). -/
def specOrder : List Strategy :=
  [Strategy.seekAt2, Strategy.seekAt0, Strategy.noSeek]

/-- Spec-side description of the fallback chain ("tried in a fixed order; the
chain terminates on first success"): walk the strategy list, recording each
attempt, and stop at the first success. -/
def firstSuccessChain (succ : Strategy → Bool) : List Strategy → List Strategy
  | [] => []
  | s :: rest => if succ s then [s] else s :: firstSuccessChain succ rest

end ThumbnailSvc

namespace PyStr

/-!
Python string primitives, embedded as structural recursion over `List Char`
(rather than Lean's built-in `String` functions, whose well-founded recursion
does not reduce inside the kernel).  Each function is a direct model of the
Python operation named in its doc comment.
-/

/-- Is the first list a prefix of the second? -/
def isPrefixList : List Char → List Char → Bool
  | [], _ => true
  | _ :: _, [] => false
  | a :: as, b :: bs => a == b && isPrefixList as bs

/-- Python `s.startswith(pre)`. -/
def startsWithPy (s pre : String) : Bool := isPrefixList pre.data s.data

/-- Does `sub` occur as a contiguous sublist of the second argument? -/
def containsList (sub : List Char) : List Char → Bool
  | [] => isPrefixList sub []
  | c :: rest => isPrefixList sub (c :: rest) || containsList sub rest

/-- Python `sub in s` (substring test). -/
def hasSubstr (s sub : String) : Bool := containsList sub.data s.data

/-- Python `s.split(sep)` for a single-character separator, over char lists:
always at least one (possibly empty) group; a separator at either end
produces an empty group there. -/
def splitOnChar (sep : Char) : List Char → List (List Char)
  | [] => [[]]
  | c :: rest =>
    match splitOnChar sep rest with
    | [] => [[]]
    | g :: gs => if c == sep then [] :: g :: gs else (c :: g) :: gs

/-- Python `s.split(sep)` for a single-character separator. -/
def splitOnCharS (sep : Char) (s : String) : List String :=
  (splitOnChar sep s.data).map String.mk

/-- Python `url.split("/")[-1]`: the trailing `/`-separated segment (possibly
empty; the split list is never empty). -/
def trailingSegment (url : String) : String :=
  (splitOnCharS (Char.ofNat 47) url).getLastD ""

/-- Python `s.split("?")[0]`: everything before the first `?`. -/
def stripQuery (s : String) : String :=
  (splitOnCharS (Char.ofNat 63) s).headD ""

/-- Python `sep.join(parts)`. -/
def joinWith (sep : String) : List String → String
  | [] => ""
  | [x] => x
  | x :: y :: xs => x ++ sep ++ joinWith sep (y :: xs)

/-- Python `pathlib`: the final path component (`PurePath.name`) — the last
nonempty `/`-separated component, or `""` when there is none. -/
def pathName (filename : String) : String :=
  (((splitOnCharS (Char.ofNat 47) filename)).filter (fun p => p ≠ "")).getLastD ""

/-- Python `pathlib`: `PurePath.suffix` — with `name` the final component and
`i` the index of its last dot, return `name[i:]` when `0 < i < len(name)-1`,
else `""`.  Expressed via the last dot-separated part `last`: the last dot
index is `name.length - last.length - 1`, so the guard becomes `last ≠ ""`
(dot not final) and `name.length ≥ last.length + 2` (dot not initial). -/
def pathSuffix (filename : String) : String :=
  let name := pathName filename
  let parts := splitOnCharS (Char.ofNat 46) name
  let last := parts.getLastD ""
  if parts.length ≥ 2 && last ≠ "" && name.length ≥ last.length + 2 then
    "." ++ last
  else ""

/-- Python `str.lower()` on one character, for the ASCII range the
configuration values use. -/
def lowerChar (c : Char) : Char :=
  if 65 ≤ c.toNat && c.toNat ≤ 90 then Char.ofNat (c.toNat + 32) else c

/-- Python `s.lower()` (ASCII). -/
def lowerPy (s : String) : String := String.mk (s.data.map lowerChar)

end PyStr

namespace StorageSvc

/-- A wall-clock reading in JST, the value of `datetime.now(jst)` with
`jst = timezone(timedelta(hours=9))` (storage.py lines 50-51 and 108-109). -/
structure DateTimeJst where
  year : Nat
  month : Nat
  day : Nat
  hour : Nat
  minute : Nat
  second : Nat

/-- One digit character of `strftime` zero-padded numeric output. -/
def digitChar (n : Nat) : Char := Char.ofNat (48 + n % 10)

/-- `strftime` field `%m`/`%d`/`%H`/`%M`/`%S`: two-digit zero-padded decimal
(faithful for arguments below 100, which the datetime ranges guarantee). -/
def pad2 (n : Nat) : String := String.mk [digitChar (n / 10), digitChar n]

/-- `strftime` field `%Y`: four-digit decimal (faithful for years 1000-9999). -/
def pad4 (n : Nat) : String :=
  String.mk [digitChar (n / 1000), digitChar (n / 100), digitChar (n / 10), digitChar n]

/-- `now.strftime("%Y%m%d%H%M%S")` (storage.py lines 52 and 110). -/
def timestamp14 (t : DateTimeJst) : String :=
  pad4 t.year ++ pad2 t.month ++ pad2 t.day ++ pad2 t.hour ++ pad2 t.minute ++ pad2 t.second

/-- The Unique-mode object key `f"{timestamp}_U99999{file_extension}"` with
`file_extension = Path(filename).suffix` (storage.py lines 49-53 and
107-111). -/
def uniqueFilename (t : DateTimeJst) (filename : String) : String :=
  timestamp14 t ++ "_U99999" ++ PyStr.pathSuffix filename

/-- `LocalStorage.base_url` (storage.py line 44). -/
def localBaseUrl : String := "/uploads"

/-- `LocalStorage.upload_file` (storage.py lines 46-61), with the clock
reading passed explicitly: returns `f"{self.base_url}/{unique_filename}"`. -/
def LocalStorage.upload_file (now : DateTimeJst) (filename : String) : String :=
  localBaseUrl ++ "/" ++ uniqueFilename now filename

/-- `LocalStorage.upload_file_with_exact_name` (storage.py lines 63-71). -/
def LocalStorage.upload_file_with_exact_name (exact_filename : String) : String :=
  localBaseUrl ++ "/" ++ exact_filename

/-- The URL of an Azure blob as exposed by the SDK's `blob_client.url`:
`https://{account}.blob.core.windows.net/{container}/{blob}` (reserved-
character percent-encoding of blob names is not modelled). -/
def azureBlobUrl (account container blobName : String) : String :=
  "https://" ++ account ++ ".blob.core.windows.net/" ++ container ++ "/" ++ blobName

/-- `AzureBlobStorage.upload_file` (storage.py lines 104-131): same key
derivation as the local backend, then `blob_client.url`. -/
def AzureBlobStorage.upload_file (account container : String) (now : DateTimeJst)
    (filename : String) : String :=
  azureBlobUrl account container (uniqueFilename now filename)

/-- `LocalStorage.delete_file` (storage.py lines 73-85) against a filesystem
state given as the set of stored names: extract `file_url.split("/")[-1]`,
unlink and return `True` if present, else return `False`; the surrounding
`except` turns any error into `False`, so the function is total. -/
def LocalStorage.delete_file (files : String → Bool) (file_url : String) :
    Bool × (String → Bool) :=
  let filename := PyStr.trailingSegment file_url
  if files filename then (true, fun n => if n = filename then false else files n)
  else (false, files)

/-- `AzureBlobStorage.delete_file` (storage.py lines 155-174) against the
container state: extract the trailing segment as the blob name and call
`delete_blob`, which raises `ResourceNotFoundError` when the blob is absent;
the `except` maps that (and any other error) to `False`. -/
def AzureBlobStorage.delete_file (blobs : String → Bool) (file_url : String) :
    Bool × (String → Bool) :=
  let blob_name := PyStr.trailingSegment file_url
  if blobs blob_name then (true, fun n => if n = blob_name then false else blobs n)
  else (false, blobs)

/-- The two storage backends `StorageService.__init__` can construct. -/
inductive BackendKind where
  | localStorage
  | azureBlob
deriving DecidableEq

/-- Backend selection in `StorageService.__init__` (storage.py lines 192-200):
`storage_type = os.getenv("STORAGE_TYPE", "local").lower()`; `azure_blob`
selects the Azure backend, everything else falls through to local. -/
def StorageService.selectBackend (storageTypeEnv : Option String) : BackendKind :=
  let storage_type := PyStr.lowerPy (storageTypeEnv.getD "local")
  if storage_type = "azure_blob" then BackendKind.azureBlob else BackendKind.localStorage

end StorageSvc

namespace Proxy

/-- The argument tuple of one `generate_blob_sas` call: which blob the grant
is for, under which account/container, with which expiry and permission.
The token string itself is derived from these plus the account key by the
SDK, modelled by the `issue` field of `ProxyEnv`. -/
structure SasRequest where
  account : String
  container : String
  blobName : String
  expiryMinutes : Nat
  readOnly : Bool
deriving DecidableEq

/-- Environment of one proxy request: whether
`AZURE_STORAGE_CONNECTION_STRING` is set, the account/container configuration,
the SDK's token derivation, and the upstream HTTP GET (`none` models the
client raising — connection failure; `some (status, contentType, body)` an
HTTP response). -/
structure ProxyEnv where
  connAvailable : Bool
  account : String
  container : String
  issue : SasRequest → String
  upstream : String → Option (Nat × String × List Nat)

/-- Outcome of a proxy endpoint: a relayed body with its content type and
`Cache-Control` header, or an `HTTPException` status. -/
inductive ProxyResult where
  | ok (contentType : String) (body : List Nat) (cacheControl : String)
  | httpError (status : Nat)
deriving DecidableEq

/-- A proxy call's result together with the SAS grants it requested and the
upstream URLs it fetched, in order. -/
structure ProxyTrace where
  result : ProxyResult
  sasRequests : List SasRequest
  fetches : List String
deriving DecidableEq

/-- `proxy_file` of the upload router (upload.py lines 270-333): reject
references that are not `https://` Azure blob URLs with 400; take the
trailing path segment and strip any query (`split('/')[-1].split('?')[0]`,
line 292); issue a fresh 2-hour read-only SAS grant for that bare name
(lines 295-302); GET the freshly signed URL once; a client exception maps to
500 via the generic `except`, any non-200 upstream status maps to 404
(line 310), and a 200 response is relayed with a 1-hour public cache header
(line 322).  A missing connection string makes `from_connection_string`
raise, which the generic `except` also maps to 500. -/
def proxy_file_router (env : ProxyEnv) (decodedUrl : String) : ProxyTrace :=
  if !(PyStr.startsWithPy decodedUrl "https://"
        && PyStr.hasSubstr decodedUrl "blob.core.windows.net") then
    { result := ProxyResult.httpError 400, sasRequests := [], fetches := [] }
  else if !env.connAvailable then
    { result := ProxyResult.httpError 500, sasRequests := [], fetches := [] }
  else
    let filename := PyStr.stripQuery (PyStr.trailingSegment decodedUrl)
    let req : SasRequest :=
      { account := env.account, container := env.container, blobName := filename
        expiryMinutes := 120, readOnly := true }
    let sasUrl := StorageSvc.azureBlobUrl env.account env.container filename ++ "?" ++ env.issue req
    match env.upstream sasUrl with
    | none => { result := ProxyResult.httpError 500, sasRequests := [req], fetches := [sasUrl] }
    | some (status, ct, body) =>
      if status ≠ 200 then
        { result := ProxyResult.httpError 404, sasRequests := [req], fetches := [sasUrl] }
      else
        { result := ProxyResult.ok ct body "public, max-age=3600"
          sasRequests := [req], fetches := [sasUrl] }

/-- `get_media_url` of the main app (main.py lines 57-99): for an `https://`
reference take `'/'.join(parts[4:])` — everything after the container, query
included — as the blob name, otherwise the reference verbatim; fail with 500
when the connection string is missing; otherwise issue a fresh 15-minute
read-only SAS grant for that name and return the signed URL. -/
def get_media_url (env : ProxyEnv) (blob_url : String) :
    Except Nat (String × SasRequest) :=
  let filename :=
    if PyStr.startsWithPy blob_url "https://" then
      PyStr.joinWith "/" ((PyStr.splitOnCharS (Char.ofNat 47) blob_url).drop 4)
    else blob_url
  if !env.connAvailable then Except.error 500
  else
    let req : SasRequest :=
      { account := env.account, container := env.container, blobName := filename
        expiryMinutes := 15, readOnly := true }
    Except.ok (StorageSvc.azureBlobUrl env.account env.container filename ++ "?" ++ env.issue req, req)

/-- `proxy_file` of the main app (main.py lines 101-140): no reference
validation of its own — it calls `get_media_url` (whose `HTTPException` it
re-raises), GETs the signed URL once, maps a client exception to 500 via the
generic `except`, propagates any non-200 upstream status verbatim
(`HTTPException(status_code=response.status)`, line 122), and relays a 200
response with no-cache headers (line 131). -/
def proxy_file_main (env : ProxyEnv) (decodedPath : String) : ProxyTrace :=
  match get_media_url env decodedPath with
  | Except.error s => { result := ProxyResult.httpError s, sasRequests := [], fetches := [] }
  | Except.ok (sasUrl, req) =>
    match env.upstream sasUrl with
    | none => { result := ProxyResult.httpError 500, sasRequests := [req], fetches := [sasUrl] }
    | some (status, ct, body) =>
      if status ≠ 200 then
        { result := ProxyResult.httpError status, sasRequests := [req], fetches := [sasUrl] }
      else
        { result := ProxyResult.ok ct body "no-cache, no-store, must-revalidate"
          sasRequests := [req], fetches := [sasUrl] }

end Proxy

section Theorems

open ThumbnailSvc StorageSvc Proxy

/-- Any target of `scaleFitDecrease` that fits the 480x270 pad stage: for
positive input dimensions the line-137 filter always emits a 480x270 frame. -/
theorem scalePadDims_eq (iw ih : Nat) (hw : 0 < iw) (hh : 0 < ih) :
    scalePadDims iw ih = some (480, 270) := by
  unfold scalePadDims scaleFitDecrease
  by_cases hc : iw * min 270 ih ≤ ih * min 480 iw
  · have h1 : iw * min 270 ih / ih ≤ min 480 iw := by
      have hdiv : iw * min 270 ih / ih ≤ ih * min 480 iw / ih :=
        Nat.div_le_div_right hc
      rwa [Nat.mul_div_cancel_left _ hh] at hdiv
    have h2 : iw * min 270 ih / ih ≤ 480 := le_trans h1 (Nat.min_le_left _ _)
    have h3 : min 270 ih ≤ 270 := Nat.min_le_left _ _
    simp [hc, h2, h3]
  · have hc' : ih * min 480 iw ≤ iw * min 270 ih := le_of_not_le hc
    have h1 : ih * min 480 iw / iw ≤ min 270 ih := by
      have hdiv : ih * min 480 iw / iw ≤ iw * min 270 ih / iw :=
        Nat.div_le_div_right hc'
      rwa [Nat.mul_div_cancel_left _ hw] at hdiv
    have h2 : ih * min 480 iw / iw ≤ 270 := le_trans h1 (Nat.min_le_left _ _)
    have h3 : min 480 iw ≤ 480 := Nat.min_le_left _ _
    simp [hc, h2, h3]

/-- C1: for every environment — including ones where staging, reading back, or
deleting files raises — `generate_thumbnail` is a total function (modelling
the outer catch-all at thumbnail.py lines 100-102: it never raises to its
caller and always returns bytes), and whenever every frame-extraction attempt
fails the returned bytes come from the placeholder path and carry the JPEG
magic bytes `FF D8 ... FF D9` — via PIL (whose JPEG encoder output satisfies
the magic-byte contract, hypothesis `hEnc`) or, should even PIL raise, via the
hard-coded `minimalJpeg`. -/
theorem claim_C1_placeholder_jpeg (enc : DrawSpec → Nat → List Nat) (e : Env)
    (ps : ProcessState)
    (hEnc : jpegMagicOk (enc defaultThumbSpec 85) = true)
    (hfail : ∀ s, (e.attempt s).success = false) :
    jpegMagicOk (generate_thumbnail enc e ps).bytes = true
    ∧ ((generate_thumbnail enc e ps).source = ThumbSource.placeholder
       ∨ (generate_thumbnail enc e ps).source = ThumbSource.minimal) := by
  have h2 := hfail Strategy.seekAt2
  have h0 := hfail Strategy.seekAt0
  have hn := hfail Strategy.noSeek
  unfold generate_thumbnail
  simp only [h2, h0, hn, Bool.false_and, if_false, Bool.false_eq_true, ite_false]
  cases hrv : e.readVideoRaises <;>
    cases hp : e.pilOk <;>
      simp [create_default_thumbnail, hp, hEnc,
            (by decide : jpegMagicOk minimalJpeg = true)]

/-- Closed witness for C1: a stub encoder that always fails the ffmpeg chain
still yields magic-byte-correct placeholder bytes. -/
def pilEncoderStub : DrawSpec → Nat → List Nat := fun _ _ => minimalJpeg

/-- Environment in which every ffmpeg attempt fails and nothing else raises. -/
def envAllFail : ThumbnailSvc.Env :=
  { readVideoRaises := false
    attempt := fun _ => { success := false, leavesFile := false }
    videoFrameW := 1920, videoFrameH := 1080
    extractedBytes := []
    readThumbRaises := false
    pilOk := true
    unlinkVideoRaises := false, unlinkThumbRaises := false }

/-- A concrete process state. -/
def psW : ThumbnailSvc.ProcessState :=
  { pid := 4242, tempDir := "/tmp", nowSec := 1760227200, randomSeed := 7 }

/-- Witness for C1 at a concrete environment. -/
theorem claim_C1_witness :
    jpegMagicOk (generate_thumbnail pilEncoderStub envAllFail psW).bytes = true
    ∧ ((generate_thumbnail pilEncoderStub envAllFail psW).source = ThumbSource.placeholder
       ∨ (generate_thumbnail pilEncoderStub envAllFail psW).source = ThumbSource.minimal) :=
  claim_C1_placeholder_jpeg pilEncoderStub envAllFail psW (by decide) (fun _ => rfl)

/-- C2: provided staging the input does not raise (the chain is reached) and
the ffmpeg helper's invariant holds (it reports success only when its output
file exists, thumbnail.py line 155), the attempts `generate_thumbnail`
actually makes are exactly the spec-side chain: the strategies
`[SeekAt(2s), SeekAt(0s), NoSeek]` in that fixed order, cut at the first
success — hence at most three attempts, never restarted, and (the Lean model
being a total function) always terminating. -/
theorem claim_C2_chain_order (enc : DrawSpec → Nat → List Nat) (e : Env)
    (ps : ProcessState)
    (hstage : e.readVideoRaises = false)
    (hwf : ∀ s, (e.attempt s).success = true → (e.attempt s).leavesFile = true) :
    (generate_thumbnail enc e ps).trace
      = firstSuccessChain (fun s => (e.attempt s).success) specOrder
    ∧ (generate_thumbnail enc e ps).trace.length ≤ 3 := by
  unfold generate_thumbnail specOrder firstSuccessChain
  cases h1 : (e.attempt Strategy.seekAt2).success with
  | true =>
    have l1 := hwf _ h1
    cases hrt : e.readThumbRaises <;>
      simp [hstage, h1, l1, hrt, generate_thumbnail.finishRead, firstSuccessChain]
  | false =>
    cases h0 : (e.attempt Strategy.seekAt0).success with
    | true =>
      have l0 := hwf _ h0
      cases hrt : e.readThumbRaises <;>
        simp [hstage, h1, h0, l0, hrt, generate_thumbnail.finishRead, firstSuccessChain]
    | false =>
      cases hn : (e.attempt Strategy.noSeek).success with
      | true =>
        have ln := hwf _ hn
        cases hrt : e.readThumbRaises <;>
          simp [hstage, h1, h0, hn, ln, hrt, generate_thumbnail.finishRead, firstSuccessChain]
      | false =>
        simp [hstage, h1, h0, hn, generate_thumbnail.finishRead, firstSuccessChain]

/-- Environment in which only the second strategy (seek to 0s) succeeds. -/
def envSecondOk : ThumbnailSvc.Env :=
  { readVideoRaises := false
    attempt := fun s =>
      match s with
      | Strategy.seekAt0 => { success := true, leavesFile := true }
      | _ => { success := false, leavesFile := false }
    videoFrameW := 1280, videoFrameH := 720
    extractedBytes := [255, 216, 1, 255, 217]
    readThumbRaises := false
    pilOk := true
    unlinkVideoRaises := false, unlinkThumbRaises := false }

/-- Witness for C2 at a concrete environment whose second attempt succeeds. -/
theorem claim_C2_witness :
    (generate_thumbnail pilEncoderStub envSecondOk psW).trace
      = firstSuccessChain (fun s => (envSecondOk.attempt s).success) specOrder
    ∧ (generate_thumbnail pilEncoderStub envSecondOk psW).trace.length ≤ 3 :=
  claim_C2_chain_order pilEncoderStub envSecondOk psW rfl
    (by intro s; cases s <;> decide)

/-- C3: on every exit path of `generate_thumbnail` — success, extraction
failure, timeout (an attempt outcome), staging or read-back exception — both
the staged video file and any extracted/partial thumbnail file are gone
afterwards, provided the `unlink` calls in the `finally` block themselves
succeed (thumbnail.py lines 86-98 attempt the deletion unconditionally; an
OS-level `unlink` failure is logged and swallowed, which is the only way a
temp file can survive). -/
theorem claim_C3_temp_cleanup (enc : DrawSpec → Nat → List Nat) (e : Env)
    (ps : ProcessState)
    (hv : e.unlinkVideoRaises = false) (ht : e.unlinkThumbRaises = false) :
    (generate_thumbnail enc e ps).tempVideoLeft = false
    ∧ (generate_thumbnail enc e ps).tempThumbLeft = false := by
  unfold generate_thumbnail
  cases hrv : e.readVideoRaises <;>
    cases hrt : e.readThumbRaises <;>
      simp [hv, ht, hrt, generate_thumbnail.finishRead] <;>
        (repeat' split) <;> simp [hv, ht, hrt, generate_thumbnail.finishRead]

/-- Witness for C3 at a concrete environment. -/
theorem claim_C3_witness :
    (generate_thumbnail pilEncoderStub envAllFail psW).tempVideoLeft = false
    ∧ (generate_thumbnail pilEncoderStub envAllFail psW).tempThumbLeft = false :=
  claim_C3_temp_cleanup pilEncoderStub envAllFail psW rfl rfl

/-- C4: whenever the source video has positive frame dimensions and the PIL
rendering path works, the bytes `generate_thumbnail` returns encode a
480x270-pixel image on both named paths: an extracted frame (the line-137
`scale`/`pad` filter emits exactly 480x270 with black letterboxing for every
input size) and the synthesized placeholder (the fixed 480x270 canvas of
`Image.new` at line 187). -/
theorem claim_C4_output_dims (enc : DrawSpec → Nat → List Nat) (e : Env)
    (ps : ProcessState)
    (hw : 0 < e.videoFrameW) (hh : 0 < e.videoFrameH)
    (hpil : e.pilOk = true) :
    resultDims e (generate_thumbnail enc e ps) = some (480, 270) := by
  have hpad := scalePadDims_eq e.videoFrameW e.videoFrameH hw hh
  unfold generate_thumbnail generate_thumbnail.finishRead
  simp only [create_default_thumbnail, hpil, if_true, ite_true]
  (repeat' split) <;> simp [resultDims, defaultThumbSpec, hpad]

/-- Environment in which the first strategy succeeds for a 1920x1080 video. -/
def envFirstOk : ThumbnailSvc.Env :=
  { readVideoRaises := false
    attempt := fun s =>
      match s with
      | Strategy.seekAt2 => { success := true, leavesFile := true }
      | _ => { success := false, leavesFile := false }
    videoFrameW := 1920, videoFrameH := 1080
    extractedBytes := [255, 216, 9, 255, 217]
    readThumbRaises := false
    pilOk := true
    unlinkVideoRaises := false, unlinkThumbRaises := false }

/-- Witness for C4 at a concrete environment whose first attempt succeeds. -/
theorem claim_C4_witness :
    resultDims envFirstOk (generate_thumbnail pilEncoderStub envFirstOk psW)
      = some (480, 270) :=
  claim_C4_output_dims pilEncoderStub envFirstOk psW (by decide) (by decide) rfl

/-- C9: `_create_default_thumbnail` reads no per-process state — its drawing
program and JPEG quality are literals — so for a fixed PIL library behavior
(encoder `enc`, render success flag `pilOk`) any two calls, in any two process
states (pid, clock, RNG, temp dir), return byte-identical output. -/
theorem claim_C9_placeholder_deterministic (enc : DrawSpec → Nat → List Nat)
    (pilOk : Bool) (s t : ProcessState) :
    create_default_thumbnail enc pilOk s = create_default_thumbnail enc pilOk t := rfl

/-- Every character emitted by the zero-padded numeric formatter is a decimal
digit. -/
theorem digitChar_isDigit (n : Nat) : (digitChar n).isDigit = true := by
  have h : n % 10 < 10 := Nat.mod_lt _ (by norm_num)
  have key : ∀ m, m < 10 → (Char.ofNat (48 + m)).isDigit = true := by decide
  exact key _ h

/-- C7: a Unique-mode upload on either backend derives the stored object key
as the 14-character all-digit JST timestamp `%Y%m%d%H%M%S` followed by the
literal `_U99999` followed by `Path(filename).suffix`, and the returned URL
is a prefix (`/uploads/` locally, the account/container blob URL on Azure)
followed by exactly that key. -/
theorem claim_C7_unique_upload_key (t : DateTimeJst)
    (filename account container : String) :
    (timestamp14 t).length = 14
    ∧ (timestamp14 t).data.all Char.isDigit = true
    ∧ uniqueFilename t filename
        = timestamp14 t ++ "_U99999" ++ PyStr.pathSuffix filename
    ∧ LocalStorage.upload_file t filename = "/uploads/" ++ uniqueFilename t filename
    ∧ (∃ p, LocalStorage.upload_file t filename = p ++ uniqueFilename t filename)
    ∧ (∃ p, AzureBlobStorage.upload_file account container t filename
              = p ++ uniqueFilename t filename) := by
  refine ⟨rfl, ?_, rfl, rfl, ⟨"/uploads/", rfl⟩, ?_⟩
  · simp [timestamp14, pad4, pad2, String.data, List.all, digitChar_isDigit,
          String.append]
  · refine ⟨"https://" ++ account ++ ".blob.core.windows.net/" ++ container ++ "/", ?_⟩
    simp [AzureBlobStorage.upload_file, azureBlobUrl, String.append_assoc]

/-- C8: `delete_file` on both backends extracts the trailing path segment of
the URL as the object key, returns `true` exactly when an object is stored at
that key (so `false`, without throwing — the functions are total — when it is
absent), leaves the key absent afterwards, and therefore returns `false` on a
repeated delete of the same URL. -/
theorem claim_C8_delete_absent_false (files blobs : String → Bool) (url : String) :
    ((LocalStorage.delete_file files url).1 = files (PyStr.trailingSegment url)
      ∧ (LocalStorage.delete_file files url).2 (PyStr.trailingSegment url) = false
      ∧ (LocalStorage.delete_file (LocalStorage.delete_file files url).2 url).1 = false)
    ∧ ((AzureBlobStorage.delete_file blobs url).1 = blobs (PyStr.trailingSegment url)
      ∧ (AzureBlobStorage.delete_file blobs url).2 (PyStr.trailingSegment url) = false
      ∧ (AzureBlobStorage.delete_file
          (AzureBlobStorage.delete_file blobs url).2 url).1 = false) := by
  constructor
  · unfold LocalStorage.delete_file
    by_cases h : files (PyStr.trailingSegment url) = true <;> simp_all
  · unfold AzureBlobStorage.delete_file
    by_cases h : blobs (PyStr.trailingSegment url) = true <;> simp_all

/-- C10: backend selection in `StorageService.__init__` is total with a
silent default: the Azure backend is chosen exactly when the `STORAGE_TYPE`
environment variable is set to a case-insensitive spelling of `azure_blob`;
every other configuration — unset included — silently selects the local
filesystem backend. -/
theorem claim_C10_backend_selection :
    (∀ v : Option String,
        StorageService.selectBackend v = BackendKind.azureBlob
          ↔ ∃ s, v = some s ∧ PyStr.lowerPy s = "azure_blob")
    ∧ StorageService.selectBackend none = BackendKind.localStorage := by
  constructor
  · intro v
    constructor
    · intro h
      cases v with
      | none => exact absurd h (by decide)
      | some s =>
        refine ⟨s, rfl, ?_⟩
        by_contra hne
        unfold StorageService.selectBackend at h
        rw [Option.getD_some, if_neg hne] at h
        exact BackendKind.noConfusion h
    · rintro ⟨s, rfl, hs⟩
      unfold StorageService.selectBackend
      rw [Option.getD_some, if_pos hs]
  · decide

/-- Witness for C10: the case-insensitive spelling `Azure_Blob` selects the
Azure backend; an unset variable selects local storage. -/
theorem claim_C10_witness :
    StorageService.selectBackend (some "Azure_Blob") = BackendKind.azureBlob
    ∧ StorageService.selectBackend none = BackendKind.localStorage :=
  ⟨(claim_C10_backend_selection.1 (some "Azure_Blob")).mpr
      ⟨"Azure_Blob", rfl, by decide⟩,
   claim_C10_backend_selection.2⟩

/-- A SAS issuer stub for concrete evaluations. -/
def issueStub : SasRequest → String := fun _ => "freshtok"

/-- Proxy environment whose upstream always answers HTTP 404. -/
def envUpstream404 : ProxyEnv :=
  { connAvailable := true, account := "acct", container := "cont"
    issue := issueStub, upstream := fun _ => some (404, "application/xml", []) }

/-- Proxy environment whose upstream GET always raises (connection failure). -/
def envUpstreamDown : ProxyEnv :=
  { connAvailable := true, account := "acct", container := "cont"
    issue := issueStub, upstream := fun _ => none }

/-- A well-formed Azure blob reference. -/
def refGood : String := "https://acct.blob.core.windows.net/cont/file.mp4"

/-- An Azure blob reference still carrying a stale signed-URL token in its
query component. -/
def refWithToken : String := "https://acct.blob.core.windows.net/cont/file.mp4?sig=OLD"

/-- C5 counterexample: the main-app `proxy_file` endpoint performs no
malformed-reference validation — the malformed reference
`not-a-valid-reference` is treated as a bare blob name, the upstream miss
surfaces as 404, and the claimed status 400 is never produced. -/
theorem claim_C5_counterexample :
    (proxy_file_main envUpstream404 "not-a-valid-reference").result
      = ProxyResult.httpError 404
    ∧ ProxyResult.httpError 404 ≠ ProxyResult.httpError 400 := by
  exact ⟨rfl, by decide⟩

/-- C5 amended: the upload-router `proxy_file` maps a malformed reference to
400, an in-fetch client exception to 500, and every non-200 upstream status
to 404; the main-app `proxy_file` never validates the reference (so no 400),
maps an in-fetch client exception to 500 but propagates a non-200 upstream
status verbatim; neither endpoint retries — each performs at most one
upstream fetch per request. -/
theorem claim_C5_error_mapping :
    (∀ (env : ProxyEnv) (ref : String),
        (PyStr.startsWithPy ref "https://" && PyStr.hasSubstr ref "blob.core.windows.net") = false →
        (proxy_file_router env ref).result = ProxyResult.httpError 400)
    ∧ (∀ (env : ProxyEnv) (ref : String),
        (PyStr.startsWithPy ref "https://" && PyStr.hasSubstr ref "blob.core.windows.net") = true →
        env.connAvailable = true →
        (∀ u, env.upstream u = none) →
        (proxy_file_router env ref).result = ProxyResult.httpError 500
        ∧ (proxy_file_main env ref).result = ProxyResult.httpError 500)
    ∧ (∀ (env : ProxyEnv) (ref : String) (s : Nat) (ct : String) (body : List Nat),
        (PyStr.startsWithPy ref "https://" && PyStr.hasSubstr ref "blob.core.windows.net") = true →
        env.connAvailable = true →
        (∀ u, env.upstream u = some (s, ct, body)) →
        s ≠ 200 →
        (proxy_file_router env ref).result = ProxyResult.httpError 404
        ∧ (proxy_file_main env ref).result = ProxyResult.httpError s)
    ∧ (∀ (env : ProxyEnv) (ref : String),
        (proxy_file_router env ref).fetches.length ≤ 1
        ∧ (proxy_file_main env ref).fetches.length ≤ 1) := by
  refine ⟨?_, ?_, ?_, ?_⟩
  · intro env ref h
    simp [proxy_file_router, h]
  · intro env ref hgood hconn hup
    have hs : PyStr.startsWithPy ref "https://" = true := by
      cases hA : PyStr.startsWithPy ref "https://" <;> [skip; rfl]
      rw [hA] at hgood
      simp_all
    constructor
    · simp [proxy_file_router, hgood, hconn, hup]
    · simp [proxy_file_main, get_media_url, hs, hconn, hup]
  · intro env ref s ct body hgood hconn hup hs200
    have hs : PyStr.startsWithPy ref "https://" = true := by
      cases hA : PyStr.startsWithPy ref "https://" <;> [skip; rfl]
      rw [hA] at hgood
      simp_all
    constructor
    · simp [proxy_file_router, hgood, hconn, hup, hs200]
    · simp [proxy_file_main, get_media_url, hs, hconn, hup, hs200]
  · intro env ref
    constructor
    · unfold proxy_file_router
      (repeat' split) <;> try simp
      rcases env.upstream (azureBlobUrl env.account env.container
          (PyStr.stripQuery (PyStr.trailingSegment ref)) ++ "?" ++
          env.issue { account := env.account, container := env.container
                      blobName := PyStr.stripQuery (PyStr.trailingSegment ref)
                      expiryMinutes := 120, readOnly := true }) with _ | ⟨s, ct, body⟩
      · simp
      · by_cases h200 : s = 200 <;> simp [h200]
    · unfold proxy_file_main get_media_url
      (repeat' split) <;> simp

/-- Witness for C5 amended, at concrete environments: a malformed reference
gets 400 from the upload router; with the upstream down both endpoints give
500; with the upstream answering 404 the router gives 404 and the main app
propagates the 404; both endpoints fetch at most once. -/
theorem claim_C5_witness :
    (proxy_file_router envUpstream404 "not-a-valid-reference").result
      = ProxyResult.httpError 400
    ∧ ((proxy_file_router envUpstreamDown refGood).result = ProxyResult.httpError 500
        ∧ (proxy_file_main envUpstreamDown refGood).result = ProxyResult.httpError 500)
    ∧ ((proxy_file_router envUpstream404 refGood).result = ProxyResult.httpError 404
        ∧ (proxy_file_main envUpstream404 refGood).result = ProxyResult.httpError 404)
    ∧ ((proxy_file_router envUpstream404 refGood).fetches.length ≤ 1
        ∧ (proxy_file_main envUpstream404 refGood).fetches.length ≤ 1) :=
  ⟨claim_C5_error_mapping.1 envUpstream404 "not-a-valid-reference" (by decide),
   claim_C5_error_mapping.2.1 envUpstreamDown refGood (by decide) rfl (fun _ => rfl),
   claim_C5_error_mapping.2.2.1 envUpstream404 refGood 404 "application/xml" []
     (by decide) rfl (fun _ => rfl) (by decide),
   claim_C5_error_mapping.2.2.2 envUpstream404 refGood⟩

/-- C6 counterexample: the main-app proxy does not strip the query component
when extracting the object key — for a reference carrying a stale token the
SAS grant it requests is for the name `file.mp4?sig=OLD`, not the bare key
`file.mp4` (which is what stripping the query from the trailing segment
yields). -/
theorem claim_C6_counterexample :
    (proxy_file_main envUpstream404 refWithToken).sasRequests.map SasRequest.blobName
      = ["file.mp4?sig=OLD"]
    ∧ PyStr.stripQuery (PyStr.trailingSegment refWithToken) = "file.mp4"
    ∧ ("file.mp4?sig=OLD" : String) ≠ "file.mp4" := by
  exact ⟨rfl, rfl, by decide⟩

/-- C6 amended: the upload-router proxy strips any query component from the
trailing segment, requests exactly one fresh SAS grant per call for that bare
key (2-hour, read-only), and performs its single outbound GET against the
freshly signed URL — so a caller-supplied token is never reused as a
credential; the main-app variant likewise requests exactly one fresh grant
per call (15-minute, read-only) but uses the post-container remainder of the
reference verbatim, query component included, as the blob name. -/
theorem claim_C6_fresh_sas :
    (∀ (env : ProxyEnv) (ref : String),
        (PyStr.startsWithPy ref "https://" && PyStr.hasSubstr ref "blob.core.windows.net") = true →
        env.connAvailable = true →
        (proxy_file_router env ref).sasRequests
          = [{ account := env.account, container := env.container
               blobName := PyStr.stripQuery (PyStr.trailingSegment ref)
               expiryMinutes := 120, readOnly := true }]
        ∧ (proxy_file_router env ref).fetches
          = [StorageSvc.azureBlobUrl env.account env.container
                (PyStr.stripQuery (PyStr.trailingSegment ref))
              ++ "?" ++ env.issue
                { account := env.account, container := env.container
                  blobName := PyStr.stripQuery (PyStr.trailingSegment ref)
                  expiryMinutes := 120, readOnly := true }])
    ∧ (∀ (env : ProxyEnv) (ref : String),
        PyStr.startsWithPy ref "https://" = true →
        env.connAvailable = true →
        (proxy_file_main env ref).sasRequests
          = [{ account := env.account, container := env.container
               blobName := PyStr.joinWith "/" ((PyStr.splitOnCharS (Char.ofNat 47) ref).drop 4)
               expiryMinutes := 15, readOnly := true }]) := by
  constructor
  · intro env ref hgood hconn
    unfold proxy_file_router
    simp only [hgood, hconn, Bool.not_true, Bool.false_eq_true, if_false, ite_false]
    (repeat' split) <;> simp_all
  · intro env ref hs hconn
    unfold proxy_file_main get_media_url
    simp only [hs, hconn, Bool.not_true, Bool.false_eq_true, if_false, ite_true, if_true]
    (repeat' split) <;> simp_all

/-- Witness for C6 amended at concrete inputs: for the token-carrying
reference the upload router requests its grant for the bare key `file.mp4`
and fetches the freshly signed URL, while the main app requests its grant for
the verbatim remainder. -/
theorem claim_C6_witness :
    ((proxy_file_router envUpstream404 refWithToken).sasRequests
        = [{ account := "acct", container := "cont", blobName := "file.mp4"
             expiryMinutes := 120, readOnly := true }]
      ∧ (proxy_file_router envUpstream404 refWithToken).fetches
        = ["https://acct.blob.core.windows.net/cont/file.mp4?freshtok"])
    ∧ (proxy_file_main envUpstream404 refWithToken).sasRequests
        = [{ account := "acct", container := "cont", blobName := "file.mp4?sig=OLD"
             expiryMinutes := 15, readOnly := true }] := by
  refine ⟨?_, ?_⟩
  · have h := claim_C6_fresh_sas.1 envUpstream404 refWithToken (by decide) rfl
    exact ⟨by rw [h.1]; rfl, by rw [h.2]; rfl⟩
  · have h := claim_C6_fresh_sas.2 envUpstream404 refWithToken (by decide) rfl
    rw [h]; rfl

end Theorems
